import Mathlib

/-!
# HTTP-Server: the listener of `src/server.c` and the driver of `src/main.c`

The program talks to the operating system through `socket`, `bind`, `listen`,
`accept` and `close`, and to the console through `printf` and `perror`.  The
embedding makes both explicit:

* every call the program issues is recorded, in program order, as an `Event`;
* the values the operating system hands back are inputs of the model
  (`InitOutcome` for the three calls of `server_init`, a list of
  `AcceptOutcome` for the successive calls of `accept`).

A finite list of accept outcomes describes a run in which that many calls of
`accept` come back; the next call blocks, which is the event
`Event.accept fd none`.
-/

namespace HttpServer

/-! ## Data model -/

/-- The record `server_t` of `include/server.h`. -/
structure server_t where
  port : Int
  backlog : Int
  server_fd : Int
deriving DecidableEq, Repr

/-- An IPv4 address (`struct in_addr`) as its four octets in network order,
which is the order they have in memory. -/
structure in_addr where
  o0 : Nat
  o1 : Nat
  o2 : Nat
  o3 : Nat
deriving DecidableEq, Repr

/-- A 16 bit port number in network byte order, as its two octets in memory
order (most significant first). -/
structure in_port_t where
  hi : Nat
  lo : Nat
deriving DecidableEq, Repr

/-- The fields of `struct sockaddr_in` the program reads or writes. -/
structure sockaddr_in where
  sin_family : Int
  sin_port : in_port_t
  sin_addr : in_addr
deriving DecidableEq, Repr

/-- The address family constant of `<sys/socket.h>`. -/
def AF_INET : Int := 2

/-- The socket type constant of `<sys/socket.h>`. -/
def SOCK_STREAM : Int := 1

/-- The wildcard address `0.0.0.0` of `<netinet/in.h>`. -/
def INADDR_ANY : in_addr := ⟨0, 0, 0, 0⟩

/-- The value of `sizeof(struct sockaddr_in)`. -/
def sizeof_sockaddr_in : Nat := 16

/-- The library function `htons`: the argument is converted to `uint16_t`
(reduced modulo 2^16) and laid out most significant octet first. -/
def htons (hostshort : Int) : in_port_t :=
  ⟨((hostshort % 65536) / 256).toNat, ((hostshort % 65536) % 256).toNat⟩

/-- The library function `inet_ntoa`: the dotted-quad rendering of an
address. -/
def inet_ntoa (a : in_addr) : String :=
  toString a.o0 ++ "." ++ toString a.o1 ++ "." ++ toString a.o2 ++ "." ++ toString a.o3

/-- What one call of `accept` hands back: its return value, and the peer
address the kernel stored into the caller's buffer (`none` when the buffer
was left untouched, as on failure). -/
structure AcceptOutcome where
  ret : Int
  peer : Option sockaddr_in
deriving DecidableEq, Repr

/-- The calls the program can issue on the operating system and the console.
Each system call carries its arguments, and its return value where the program
receives one.  `read`, `write`, `send` and `recv` are part of the alphabet so
that their absence from a run can be stated. -/
inductive Event where
  | printf (s : String)
  | perror (s : String)
  | socket (domain : Int) (ty : Int) (protocol : Int) (ret : Int)
  | bind (sockfd : Int) (addr : sockaddr_in) (addrlen : Nat) (ret : Int)
  | listen (sockfd : Int) (backlog : Int) (ret : Int)
  | accept (sockfd : Int) (result : Option AcceptOutcome)
  | close (fd : Int)
  | read (fd : Int)
  | write (fd : Int)
  | send (fd : Int)
  | recv (fd : Int)
deriving DecidableEq, Repr

/-- Is the event a `perror` report? -/
def Event.isPerror : Event → Bool
  | Event.perror _ => true
  | _ => false

/-- Is the event a call of `close`? -/
def Event.isClose : Event → Bool
  | Event.close _ => true
  | _ => false

/-- Is the event a call of `close` on a descriptor (a non-negative value)? -/
def Event.isCloseOfDescriptor : Event → Bool
  | Event.close fd => decide (0 ≤ fd)
  | _ => false

/-- Is the event a call of `accept`? -/
def Event.isAccept : Event → Bool
  | Event.accept _ _ => true
  | _ => false

/-- Is the event a call of `bind`? -/
def Event.isBind : Event → Bool
  | Event.bind _ _ _ _ => true
  | _ => false

/-- Is the event a call of `listen`? -/
def Event.isListen : Event → Bool
  | Event.listen _ _ _ => true
  | _ => false

/-- Is the event a call that moves bytes on a descriptor? -/
def Event.isDataTransfer : Event → Bool
  | Event.read _ => true
  | Event.write _ => true
  | Event.send _ => true
  | Event.recv _ => true
  | _ => false

/-- Is the event a "Connection IP" line? -/
def Event.isConnectionLine : Event → Bool
  | Event.printf s => List.isPrefixOf "Connection IP".toList s.toList
  | _ => false

/-! ## `server_init` -/

/-- The return values of the three system calls of `server_init`.  A call that
is never reached leaves its field unused. -/
structure InitOutcome where
  socket_ret : Int
  bind_ret : Int
  listen_ret : Int
deriving DecidableEq, Repr

/-- What `server_init` leaves behind: the record behind `srv`, the value it
returns and the calls it issued. -/
structure InitResult where
  srv : server_t
  ret : Int
  trace : List Event
deriving DecidableEq, Repr

/-- The function `server_init` of `src/server.c`. -/
def server_init (srv : server_t) (port : Int) (os : InitOutcome) : InitResult :=
  let srv := { srv with port := port }
  let srv := { srv with backlog := 10 }
  let srv := { srv with server_fd := -1 }
  let addr : sockaddr_in :=
    { sin_family := AF_INET, sin_port := htons srv.port, sin_addr := INADDR_ANY }
  let t := [Event.printf "Preparing to create the socket...\n"]
  let srv := { srv with server_fd := os.socket_ret }
  let t := t ++ [Event.socket AF_INET SOCK_STREAM 0 os.socket_ret]
  if srv.server_fd < 0 then
    ⟨srv, -1, t ++ [Event.perror "socket"]⟩
  else
    let t := t ++ [Event.printf "Socket created succesfully !\n"]
    let t := t ++ [Event.printf "Preparing to Bind...\n"]
    let t := t ++ [Event.bind srv.server_fd addr sizeof_sockaddr_in os.bind_ret]
    if os.bind_ret < 0 then
      ⟨srv, -1, t ++ [Event.perror "bind"]⟩
    else
      let t := t ++ [Event.printf "Bind succesful !\n"]
      let t := t ++ [Event.printf "Preparing to listen...\n"]
      let t := t ++ [Event.listen srv.server_fd srv.backlog os.listen_ret]
      if os.listen_ret < 0 then
        ⟨srv, -1, t ++ [Event.perror "listen"]⟩
      else
        let t := t ++ [Event.printf "listening...\n"]
        ⟨srv, 0, t⟩

/-! ## `server_run` and `server_close` -/

/-- One pass through the body of the loop of `server_run`, for the outcome `o`
of its call of `accept`: the calls issued, and the contents of `client_addr`
afterwards.  `client_addr` is a local of `server_run` declared outside the
loop, so it keeps its contents from one pass to the next. -/
def server_run_body (srv : server_t) (client_addr : sockaddr_in) (o : AcceptOutcome) :
    List Event × sockaddr_in :=
  let t := [Event.printf "Prepaing to accept new connection...\n"]
  let connection_fd := o.ret
  let client_addr := match o.peer with
    | some a => a
    | none => client_addr
  let t := t ++ [Event.accept srv.server_fd (some o)]
  let t := if connection_fd < 0 then t ++ [Event.perror "accept"] else t
  let t := t ++ [Event.printf ("Connection IP : " ++ inet_ntoa client_addr.sin_addr ++ "\n")]
  let t := t ++ [Event.close connection_fd]
  (t, client_addr)

/-- What is known of a call of `server_run`: the calls it issued, and whether
it has returned to its caller. -/
structure RunResult where
  trace : List Event
  returned : Bool
deriving DecidableEq, Repr

/-- The function `server_run` of `src/server.c`, run against the successive
outcomes of `accept`.  The loop condition is the constant `1`; when the
outcomes are used up the next call of `accept` blocks. -/
def server_run (srv : server_t) (client_addr : sockaddr_in) : List AcceptOutcome → RunResult
  | [] =>
    if (1 : Int) ≠ 0 then
      ⟨[Event.printf "Prepaing to accept new connection...\n",
        Event.accept srv.server_fd none], false⟩
    else
      ⟨[], true⟩
  | o :: rest =>
    if (1 : Int) ≠ 0 then
      let b := server_run_body srv client_addr o
      let r := server_run srv b.2 rest
      ⟨b.1 ++ r.trace, r.returned⟩
    else
      ⟨[], true⟩

/-- The passes of the loop of `server_run` over the outcomes `outs`, all of
them completed: the calls issued, and `client_addr` afterwards. -/
def iterations (srv : server_t) (client_addr : sockaddr_in) :
    List AcceptOutcome → List Event × sockaddr_in
  | [] => ([], client_addr)
  | o :: rest =>
    let b := server_run_body srv client_addr o
    let r := iterations srv b.2 rest
    (b.1 ++ r.1, r.2)

/-- The function `server_close` of `src/server.c`. -/
def server_close (srv : server_t) : List Event :=
  [Event.close srv.server_fd]

/-! ## `main` -/

/-- What is known of a run of the program: the calls it issued, and the value
`main` returned (`none` while the program is still inside `server_run`). -/
structure MainResult where
  trace : List Event
  exit_code : Option Int
deriving DecidableEq, Repr

/-- The function `main` of `src/main.c`, compiled against `server.h`: the
behaviour of the callee `server_run` is the parameter `run`.  `srv0` is the
content of the uninitialised local `srv`. -/
def main_linked (run : server_t → RunResult) (os : InitOutcome) (srv0 : server_t) :
    MainResult :=
  let i := server_init srv0 8080 os
  if i.ret ≠ 0 then
    ⟨i.trace ++ [Event.perror "failed to init the server \n"], some (-1)⟩
  else
    let t := i.trace ++ [Event.printf "Server init sucessful...\n"]
    let r := run i.srv
    let t := t ++ r.trace
    if r.returned then
      ⟨t ++ server_close i.srv, some 0⟩
    else
      ⟨t, none⟩

/-- The program: `main` linked with the `server_run` of `src/server.c`.
`client_addr0` is the content of the uninitialised local `client_addr` of
`server_run`. -/
def main (os : InitOutcome) (srv0 : server_t) (client_addr0 : sockaddr_in)
    (accepts : List AcceptOutcome) : MainResult :=
  main_linked (fun srv => server_run srv client_addr0 accepts) os srv0

/-! ## Concrete inputs used by the evaluations below -/

/-- Some content for the uninitialised `srv`. -/
def srv_garbage : server_t := ⟨0, 0, 0⟩

/-- Some content for the uninitialised `client_addr`. -/
def addr_garbage : sockaddr_in := ⟨0, ⟨0, 0⟩, ⟨0, 0, 0, 0⟩⟩

/-- A listener as `server_init` leaves it on success with descriptor 3. -/
def srv_listening : server_t := ⟨8080, 10, 3⟩

/-- A peer at 192.168.1.7, source port 0xC350. -/
def peer_a : sockaddr_in := ⟨2, ⟨195, 80⟩, ⟨192, 168, 1, 7⟩⟩

/-- A peer at 10.0.0.5, source port 0xC351. -/
def peer_b : sockaddr_in := ⟨2, ⟨195, 81⟩, ⟨10, 0, 0, 5⟩⟩

/-- The three calls of `server_init` succeed; `socket` returns descriptor 3. -/
def os_ok : InitOutcome := ⟨3, 0, 0⟩

/-- The call of `bind` fails (the port is in use); `socket` returned 3. -/
def os_bind_fails : InitOutcome := ⟨3, -1, 0⟩

/-- The call of `listen` fails; `socket` returned 3. -/
def os_listen_fails : InitOutcome := ⟨3, 0, -1⟩

/-- A failed call of `accept`: it returns -1 and leaves the buffer alone. -/
def accept_failed : AcceptOutcome := ⟨-1, none⟩

/-! ## Shared lemmas -/

theorem server_init_socket_fails (srv : server_t) (port : Int) (os : InitOutcome)
    (h : os.socket_ret < 0) :
    server_init srv port os =
      ⟨⟨port, 10, os.socket_ret⟩, -1,
        [Event.printf "Preparing to create the socket...\n",
         Event.socket AF_INET SOCK_STREAM 0 os.socket_ret,
         Event.perror "socket"]⟩ := by
  simp [server_init, h]

theorem server_init_bind_fails (srv : server_t) (port : Int) (os : InitOutcome)
    (hs : 0 ≤ os.socket_ret) (hb : os.bind_ret < 0) :
    server_init srv port os =
      ⟨⟨port, 10, os.socket_ret⟩, -1,
        [Event.printf "Preparing to create the socket...\n",
         Event.socket AF_INET SOCK_STREAM 0 os.socket_ret,
         Event.printf "Socket created succesfully !\n",
         Event.printf "Preparing to Bind...\n",
         Event.bind os.socket_ret ⟨AF_INET, htons port, INADDR_ANY⟩ sizeof_sockaddr_in
           os.bind_ret,
         Event.perror "bind"]⟩ := by
  simp [server_init, not_lt.mpr hs, hb]

theorem server_init_listen_fails (srv : server_t) (port : Int) (os : InitOutcome)
    (hs : 0 ≤ os.socket_ret) (hb : 0 ≤ os.bind_ret) (hl : os.listen_ret < 0) :
    server_init srv port os =
      ⟨⟨port, 10, os.socket_ret⟩, -1,
        [Event.printf "Preparing to create the socket...\n",
         Event.socket AF_INET SOCK_STREAM 0 os.socket_ret,
         Event.printf "Socket created succesfully !\n",
         Event.printf "Preparing to Bind...\n",
         Event.bind os.socket_ret ⟨AF_INET, htons port, INADDR_ANY⟩ sizeof_sockaddr_in
           os.bind_ret,
         Event.printf "Bind succesful !\n",
         Event.printf "Preparing to listen...\n",
         Event.listen os.socket_ret 10 os.listen_ret,
         Event.perror "listen"]⟩ := by
  simp [server_init, not_lt.mpr hs, not_lt.mpr hb, hl]

theorem server_init_succeeds (srv : server_t) (port : Int) (os : InitOutcome)
    (hs : 0 ≤ os.socket_ret) (hb : 0 ≤ os.bind_ret) (hl : 0 ≤ os.listen_ret) :
    server_init srv port os =
      ⟨⟨port, 10, os.socket_ret⟩, 0,
        [Event.printf "Preparing to create the socket...\n",
         Event.socket AF_INET SOCK_STREAM 0 os.socket_ret,
         Event.printf "Socket created succesfully !\n",
         Event.printf "Preparing to Bind...\n",
         Event.bind os.socket_ret ⟨AF_INET, htons port, INADDR_ANY⟩ sizeof_sockaddr_in
           os.bind_ret,
         Event.printf "Bind succesful !\n",
         Event.printf "Preparing to listen...\n",
         Event.listen os.socket_ret 10 os.listen_ret,
         Event.printf "listening...\n"]⟩ := by
  simp [server_init, not_lt.mpr hs, not_lt.mpr hb, not_lt.mpr hl]

/-- The four ways a call of `server_init` can go. -/
theorem server_init_cases (os : InitOutcome) :
    os.socket_ret < 0 ∨ (0 ≤ os.socket_ret ∧ os.bind_ret < 0) ∨
      (0 ≤ os.socket_ret ∧ 0 ≤ os.bind_ret ∧ os.listen_ret < 0) ∨
      (0 ≤ os.socket_ret ∧ 0 ≤ os.bind_ret ∧ 0 ≤ os.listen_ret) := by
  omega

/-- No call of `close` or `accept` and no transfer of bytes is issued by
`server_init`, and it prints no line of the accept loop. -/
theorem server_init_trace_events (srv : server_t) (port : Int) (os : InitOutcome) :
    ∀ e ∈ (server_init srv port os).trace,
      e.isClose = false ∧ e.isAccept = false ∧ e.isDataTransfer = false ∧
        e ≠ Event.printf "Prepaing to accept new connection...\n" := by
  rcases server_init_cases os with h | ⟨h1, h2⟩ | ⟨h1, h2, h3⟩ | ⟨h1, h2, h3⟩
  · rw [server_init_socket_fails srv port os h]
    simp [Event.isClose, Event.isAccept, Event.isDataTransfer]
  · rw [server_init_bind_fails srv port os h1 h2]
    simp [Event.isClose, Event.isAccept, Event.isDataTransfer]
  · rw [server_init_listen_fails srv port os h1 h2 h3]
    simp [Event.isClose, Event.isAccept, Event.isDataTransfer]
  · rw [server_init_succeeds srv port os h1 h2 h3]
    simp [Event.isClose, Event.isAccept, Event.isDataTransfer]

/-- The record `server_init` leaves behind, whatever the outcome. -/
theorem server_init_srv (srv : server_t) (port : Int) (os : InitOutcome) :
    (server_init srv port os).srv = ⟨port, 10, os.socket_ret⟩ := by
  rcases server_init_cases os with h | ⟨h1, h2⟩ | ⟨h1, h2, h3⟩ | ⟨h1, h2, h3⟩
  · rw [server_init_socket_fails srv port os h]
  · rw [server_init_bind_fails srv port os h1 h2]
  · rw [server_init_listen_fails srv port os h1 h2 h3]
  · rw [server_init_succeeds srv port os h1 h2 h3]

/-- The value `server_init` returns is 0 or -1. -/
theorem server_init_ret (srv : server_t) (port : Int) (os : InitOutcome) :
    ((server_init srv port os).ret = 0 ∧
        0 ≤ os.socket_ret ∧ 0 ≤ os.bind_ret ∧ 0 ≤ os.listen_ret) ∨
      ((server_init srv port os).ret = -1 ∧
        ¬ (0 ≤ os.socket_ret ∧ 0 ≤ os.bind_ret ∧ 0 ≤ os.listen_ret)) := by
  rcases server_init_cases os with h | ⟨h1, h2⟩ | ⟨h1, h2, h3⟩ | ⟨h1, h2, h3⟩
  · rw [server_init_socket_fails srv port os h]
    exact Or.inr ⟨rfl, by omega⟩
  · rw [server_init_bind_fails srv port os h1 h2]
    exact Or.inr ⟨rfl, by omega⟩
  · rw [server_init_listen_fails srv port os h1 h2 h3]
    exact Or.inr ⟨rfl, by omega⟩
  · rw [server_init_succeeds srv port os h1 h2 h3]
    exact Or.inl ⟨rfl, h1, h2, h3⟩

/-- The calls of one pass of the loop, for any outcome of `accept`. -/
theorem server_run_body_trace (srv : server_t) (ca : sockaddr_in) (o : AcceptOutcome) :
    (server_run_body srv ca o).1 =
      [Event.printf "Prepaing to accept new connection...\n",
       Event.accept srv.server_fd (some o)] ++
      (if o.ret < 0 then [Event.perror "accept"] else []) ++
      [Event.printf ("Connection IP : " ++
          inet_ntoa (server_run_body srv ca o).2.sin_addr ++ "\n"),
       Event.close o.ret] := by
  unfold server_run_body
  by_cases h : o.ret < 0 <;> simp [h]

/-- A pass of the loop in which `accept` succeeds with descriptor `c` and
peer address `a`. -/
theorem server_run_body_ok (srv : server_t) (ca : sockaddr_in) (c : Int) (a : sockaddr_in)
    (hc : 0 ≤ c) :
    server_run_body srv ca ⟨c, some a⟩ =
      ([Event.printf "Prepaing to accept new connection...\n",
        Event.accept srv.server_fd (some ⟨c, some a⟩),
        Event.printf ("Connection IP : " ++ inet_ntoa a.sin_addr ++ "\n"),
        Event.close c], a) := by
  simp [server_run_body, not_lt.mpr hc]

/-- The loop of `server_run` has not returned, however many calls of `accept`
came back. -/
theorem server_run_returned (srv : server_t) (ca : sockaddr_in) (outs : List AcceptOutcome) :
    (server_run srv ca outs).returned = false := by
  induction outs generalizing ca with
  | nil => simp [server_run]
  | cons o rest ih => simp [server_run, ih]

/-- A run of `server_run` splits at any point into the completed passes and
the run that follows them. -/
theorem server_run_append (srv : server_t) (ca : sockaddr_in) (pre post : List AcceptOutcome) :
    (server_run srv ca (pre ++ post)).trace =
      (iterations srv ca pre).1 ++
        (server_run srv (iterations srv ca pre).2 post).trace := by
  induction pre generalizing ca with
  | nil => simp [iterations]
  | cons o rest ih => simp [server_run, iterations, ih]

/-- The calls of `server_run` when the next outcome of `accept` is `o`. -/
theorem server_run_cons (srv : server_t) (ca : sockaddr_in) (o : AcceptOutcome)
    (rest : List AcceptOutcome) :
    (server_run srv ca (o :: rest)).trace =
      (server_run_body srv ca o).1 ++
        (server_run srv (server_run_body srv ca o).2 rest).trace := by
  simp [server_run]

/-- No pass of the loop reads or writes a byte. -/
theorem server_run_no_data_transfer (srv : server_t) (ca : sockaddr_in)
    (outs : List AcceptOutcome) :
    ∀ e ∈ (server_run srv ca outs).trace, e.isDataTransfer = false := by
  induction outs generalizing ca with
  | nil => simp [server_run, Event.isDataTransfer]
  | cons o rest ih =>
    intro e he
    rw [server_run_cons, List.mem_append] at he
    rcases he with he | he
    · rw [server_run_body_trace] at he
      by_cases h : o.ret < 0
      · simp [h] at he
        rcases he with he | he | he | he | he <;> subst he <;> rfl
      · simp [h] at he
        rcases he with he | he | he | he <;> subst he <;> rfl
    · exact ih _ e he

/-- The calls of `close` on a descriptor are as many as the successful calls
of `accept`. -/
theorem server_run_close_count (srv : server_t) (ca : sockaddr_in)
    (outs : List AcceptOutcome) :
    ((server_run srv ca outs).trace.filter Event.isCloseOfDescriptor).length =
      (outs.filter (fun o => decide (0 ≤ o.ret))).length := by
  induction outs generalizing ca with
  | nil => simp [server_run, Event.isCloseOfDescriptor]
  | cons o rest ih =>
    rw [server_run_cons, server_run_body_trace]
    by_cases h : o.ret < 0
    · have h2 : ¬ (0 ≤ o.ret) := by omega
      simp [h, h2, Event.isCloseOfDescriptor, ih]
    · have h2 : 0 ≤ o.ret := by omega
      simp [h, h2, Event.isCloseOfDescriptor, ih]

/-- Every call of `close` in `server_run` is on the value some call of
`accept` returned. -/
theorem server_run_close_origin (srv : server_t) (ca : sockaddr_in)
    (outs : List AcceptOutcome) (fd : Int) :
    Event.close fd ∈ (server_run srv ca outs).trace → ∃ o ∈ outs, o.ret = fd := by
  induction outs generalizing ca with
  | nil => simp [server_run]
  | cons o rest ih =>
    intro he
    rw [server_run_cons, List.mem_append] at he
    rcases he with he | he
    · rw [server_run_body_trace] at he
      refine ⟨o, List.mem_cons_self _ _, ?_⟩
      by_cases h : o.ret < 0 <;> simp [h] at he <;> exact he.symm
    · obtain ⟨o1, ho1, h1⟩ := ih _ he
      exact ⟨o1, List.mem_cons_of_mem _ ho1, h1⟩

/-- The run of `main` when `server_init` fails. -/
theorem main_linked_init_fails (run : server_t → RunResult) (os : InitOutcome)
    (srv0 : server_t) (h : (server_init srv0 8080 os).ret ≠ 0) :
    main_linked run os srv0 =
      ⟨(server_init srv0 8080 os).trace ++ [Event.perror "failed to init the server \n"],
        some (-1)⟩ := by
  simp [main_linked, h]

/-- The run of `main` when `server_init` succeeds and the callee has not
returned. -/
theorem main_linked_running (run : server_t → RunResult) (os : InitOutcome)
    (srv0 : server_t) (h : (server_init srv0 8080 os).ret = 0)
    (hr : (run (server_init srv0 8080 os).srv).returned = false) :
    main_linked run os srv0 =
      ⟨(server_init srv0 8080 os).trace ++ [Event.printf "Server init sucessful...\n"] ++
        (run (server_init srv0 8080 os).srv).trace, none⟩ := by
  simp [main_linked, h, hr]

/-- The run of `main` when `server_init` succeeds and the callee returns. -/
theorem main_linked_returned (run : server_t → RunResult) (os : InitOutcome)
    (srv0 : server_t) (h : (server_init srv0 8080 os).ret = 0)
    (hr : (run (server_init srv0 8080 os).srv).returned = true) :
    main_linked run os srv0 =
      ⟨(server_init srv0 8080 os).trace ++ [Event.printf "Server init sucessful...\n"] ++
        (run (server_init srv0 8080 os).srv).trace ++
        server_close (server_init srv0 8080 os).srv, some 0⟩ := by
  simp [main_linked, h, hr]

/-- The loop of `server_run` issues no call of `bind` or `listen`. -/
theorem server_run_no_bind_listen (srv : server_t) (ca : sockaddr_in)
    (outs : List AcceptOutcome) :
    ∀ e ∈ (server_run srv ca outs).trace, e.isBind = false ∧ e.isListen = false := by
  induction outs generalizing ca with
  | nil => simp [server_run, Event.isBind, Event.isListen]
  | cons o rest ih =>
    intro e he
    rw [server_run_cons, List.mem_append] at he
    rcases he with he | he
    · rw [server_run_body_trace] at he
      by_cases h : o.ret < 0
      · simp [h] at he
        rcases he with he | he | he | he | he <;> subst he <;> exact ⟨rfl, rfl⟩
      · simp [h] at he
        rcases he with he | he | he | he <;> subst he <;> exact ⟨rfl, rfl⟩
    · exact ih _ e he

/-! ## Claims -/

/-- C1: `server_init` returns 0 exactly when `socket`, `bind` and `listen` all
return a non-negative value and returns -1 in every other case; a failing
`bind` in particular makes it return -1. -/
theorem server_init_return_value (srv : server_t) (port : Int) (os : InitOutcome) :
    ((server_init srv port os).ret = 0 ↔
        (0 ≤ os.socket_ret ∧ 0 ≤ os.bind_ret ∧ 0 ≤ os.listen_ret)) ∧
    (¬ (0 ≤ os.socket_ret ∧ 0 ≤ os.bind_ret ∧ 0 ≤ os.listen_ret) →
        (server_init srv port os).ret = -1) ∧
    (os.bind_ret < 0 → (server_init srv port os).ret = -1) := by
  rcases server_init_cases os with h | ⟨h1, h2⟩ | ⟨h1, h2, h3⟩ | ⟨h1, h2, h3⟩
  · rw [server_init_socket_fails srv port os h]
    refine ⟨⟨fun h0 => by simp at h0, fun h0 => by omega⟩, fun _ => rfl, fun _ => rfl⟩
  · rw [server_init_bind_fails srv port os h1 h2]
    refine ⟨⟨fun h0 => by simp at h0, fun h0 => by omega⟩, fun _ => rfl, fun _ => rfl⟩
  · rw [server_init_listen_fails srv port os h1 h2 h3]
    refine ⟨⟨fun h0 => by simp at h0, fun h0 => by omega⟩, fun _ => rfl, fun _ => rfl⟩
  · rw [server_init_succeeds srv port os h1 h2 h3]
    refine ⟨⟨fun _ => ⟨h1, h2, h3⟩, fun _ => rfl⟩, fun h0 => ?_, fun h0 => ?_⟩
    · exact absurd ⟨h1, h2, h3⟩ h0
    · omega

/-- C2: an accept failure does not end the loop of `server_run`.  In a run
whose accept outcomes are `pre`, then a failure `f`, then a success with
descriptor `c` and peer `a`, then `post`: after the pass of the failure (which
reports `perror("accept")`) the loop calls `accept` again on `srv.server_fd`,
and the successful accept is processed by the same four calls (announce,
accept, "Connection IP" line of `a`, `close c`) as in the run without the
failure; a failure that comes last is followed by a new call of `accept` on
`srv.server_fd` as well. -/
theorem accept_failure_does_not_stop_loop (srv : server_t) (ca : sockaddr_in)
    (pre : List AcceptOutcome) (f : AcceptOutcome) (c : Int) (a : sockaddr_in)
    (post : List AcceptOutcome) (hf : f.ret < 0) (hc : 0 ≤ c) :
    (server_run srv ca (pre ++ f :: ⟨c, some a⟩ :: post)).trace =
        (iterations srv ca pre).1 ++
        [Event.printf "Prepaing to accept new connection...\n",
         Event.accept srv.server_fd (some f),
         Event.perror "accept",
         Event.printf ("Connection IP : " ++
           inet_ntoa (server_run_body srv (iterations srv ca pre).2 f).2.sin_addr ++ "\n"),
         Event.close f.ret] ++
        [Event.printf "Prepaing to accept new connection...\n",
         Event.accept srv.server_fd (some ⟨c, some a⟩),
         Event.printf ("Connection IP : " ++ inet_ntoa a.sin_addr ++ "\n"),
         Event.close c] ++
        (server_run srv a post).trace ∧
    (server_run srv ca (pre ++ ⟨c, some a⟩ :: post)).trace =
        (iterations srv ca pre).1 ++
        [Event.printf "Prepaing to accept new connection...\n",
         Event.accept srv.server_fd (some ⟨c, some a⟩),
         Event.printf ("Connection IP : " ++ inet_ntoa a.sin_addr ++ "\n"),
         Event.close c] ++
        (server_run srv a post).trace ∧
    (server_run srv ca (pre ++ [f])).trace =
        (iterations srv ca pre).1 ++
        [Event.printf "Prepaing to accept new connection...\n",
         Event.accept srv.server_fd (some f),
         Event.perror "accept",
         Event.printf ("Connection IP : " ++
           inet_ntoa (server_run_body srv (iterations srv ca pre).2 f).2.sin_addr ++ "\n"),
         Event.close f.ret] ++
        [Event.printf "Prepaing to accept new connection...\n",
         Event.accept srv.server_fd none] ∧
    (server_run srv ca (pre ++ f :: ⟨c, some a⟩ :: post)).returned = false := by
  have hbody := server_run_body_trace srv (iterations srv ca pre).2 f
  simp only [hf, if_true] at hbody
  refine ⟨?_, ?_, ?_, server_run_returned _ _ _⟩
  · rw [server_run_append, server_run_cons, server_run_cons, server_run_body_ok _ _ _ _ hc,
      hbody]
    simp
  · rw [server_run_append, server_run_cons, server_run_body_ok _ _ _ _ hc]
    simp
  · rw [server_run_append, server_run_cons, hbody]
    simp [server_run]

/-- C2, at a concrete run: a first client, a failed accept, a second client. -/
theorem accept_failure_does_not_stop_loop_witness :
    accept_failed.ret < 0 ∧ (0 : Int) ≤ 5 ∧
    (server_run srv_listening addr_garbage
        ([⟨4, some peer_a⟩] ++ accept_failed :: ⟨5, some peer_b⟩ :: [])).trace =
      [Event.printf "Prepaing to accept new connection...\n",
       Event.accept 3 (some ⟨4, some peer_a⟩),
       Event.printf "Connection IP : 192.168.1.7\n",
       Event.close 4,
       Event.printf "Prepaing to accept new connection...\n",
       Event.accept 3 (some accept_failed),
       Event.perror "accept",
       Event.printf "Connection IP : 192.168.1.7\n",
       Event.close (-1),
       Event.printf "Prepaing to accept new connection...\n",
       Event.accept 3 (some ⟨5, some peer_b⟩),
       Event.printf "Connection IP : 10.0.0.5\n",
       Event.close 5,
       Event.printf "Prepaing to accept new connection...\n",
       Event.accept 3 none] :=
  ⟨by decide, by decide,
    (accept_failure_does_not_stop_loop srv_listening addr_garbage [⟨4, some peer_a⟩]
      accept_failed 5 peer_b [] (by decide) (by decide)).1.trans (by decide)⟩

/-- C3, evaluated on the code: in a pass of the loop in which `accept` fails
with -1, `server_run` reports the error and then still prints a
"Connection IP" line (of the address left in `client_addr`) and calls `close`
on the value -1. -/
theorem failed_accept_pass_prints_and_closes :
    server_run_body srv_listening addr_garbage accept_failed =
      ([Event.printf "Prepaing to accept new connection...\n",
        Event.accept 3 (some accept_failed),
        Event.perror "accept",
        Event.printf "Connection IP : 0.0.0.0\n",
        Event.close (-1)], addr_garbage) ∧
    (((server_run_body srv_listening addr_garbage accept_failed).1.filter
        Event.isConnectionLine).length = 1) ∧
    (((server_run_body srv_listening addr_garbage accept_failed).1.filter
        Event.isClose).length = 1) := by
  decide

/-- C4: a pass of the loop in which `accept` succeeds with descriptor `c` and
peer address `a` issues exactly: the announcement, the call of `accept`, one
"Connection IP" line with the dotted-quad rendering of `a` (whatever address
`client_addr` held before), and one `close c`; this holds at any position of a
run.  No run of `server_run` issues `read`, `write`, `send` or `recv`, and in
any run the calls of `close` on a descriptor are as many as the successful
calls of `accept`. -/
theorem successful_accept_logged_and_closed_once (srv : server_t) (ca : sockaddr_in)
    (c : Int) (a : sockaddr_in) (pre post : List AcceptOutcome) (hc : 0 ≤ c) :
    server_run_body srv ca ⟨c, some a⟩ =
      ([Event.printf "Prepaing to accept new connection...\n",
        Event.accept srv.server_fd (some ⟨c, some a⟩),
        Event.printf ("Connection IP : " ++ inet_ntoa a.sin_addr ++ "\n"),
        Event.close c], a) ∧
    (server_run srv ca (pre ++ ⟨c, some a⟩ :: post)).trace =
        (iterations srv ca pre).1 ++
        [Event.printf "Prepaing to accept new connection...\n",
         Event.accept srv.server_fd (some ⟨c, some a⟩),
         Event.printf ("Connection IP : " ++ inet_ntoa a.sin_addr ++ "\n"),
         Event.close c] ++
        (server_run srv a post).trace ∧
    (∀ (outs : List AcceptOutcome) (ca1 : sockaddr_in),
      (∀ e ∈ (server_run srv ca1 outs).trace, e.isDataTransfer = false) ∧
      ((server_run srv ca1 outs).trace.filter Event.isCloseOfDescriptor).length =
        (outs.filter (fun o => decide (0 ≤ o.ret))).length) := by
  refine ⟨server_run_body_ok _ _ _ _ hc, ?_, fun outs ca1 =>
    ⟨server_run_no_data_transfer _ _ _, server_run_close_count _ _ _⟩⟩
  rw [server_run_append, server_run_cons, server_run_body_ok _ _ _ _ hc]
  simp

/-- C4, at a concrete pass: descriptor 4, peer 192.168.1.7, with the address
of another peer left in `client_addr`. -/
theorem successful_accept_logged_and_closed_once_witness :
    (0 : Int) ≤ 4 ∧
    server_run_body srv_listening peer_b ⟨4, some peer_a⟩ =
      ([Event.printf "Prepaing to accept new connection...\n",
        Event.accept 3 (some ⟨4, some peer_a⟩),
        Event.printf "Connection IP : 192.168.1.7\n",
        Event.close 4], peer_a) :=
  ⟨by decide,
    (successful_accept_logged_and_closed_once srv_listening peer_b 4 peer_a [] []
      (by decide)).1.trans (by decide)⟩

/-- C5: when `server_init` fails, `main` issues the calls of `server_init`,
then the report `perror("failed to init the server \n")`, and returns -1; its
run holds no call of `accept` or `close` and no line of the accept loop, so
neither `server_run` nor `server_close` was entered.  Whatever the callee
`server_run` does, `main` returns 0 exactly when `server_init` returned 0 and
the call of `server_run` returned. -/
theorem main_init_failure_exits (os : InitOutcome) (srv0 : server_t) (ca : sockaddr_in)
    (accepts : List AcceptOutcome) (h : (server_init srv0 8080 os).ret ≠ 0) :
    main os srv0 ca accepts =
      ⟨(server_init srv0 8080 os).trace ++ [Event.perror "failed to init the server \n"],
        some (-1)⟩ ∧
    (∀ e ∈ (main os srv0 ca accepts).trace,
      e.isAccept = false ∧ e.isClose = false ∧
        e ≠ Event.printf "Prepaing to accept new connection...\n") ∧
    (∀ (run : server_t → RunResult) (os1 : InitOutcome) (srv1 : server_t),
      (main_linked run os1 srv1).exit_code = some 0 ↔
        ((server_init srv1 8080 os1).ret = 0 ∧
          (run (server_init srv1 8080 os1).srv).returned = true)) := by
  refine ⟨main_linked_init_fails _ os srv0 h, ?_, ?_⟩
  · intro e he
    rw [main, main_linked_init_fails _ os srv0 h] at he
    simp only [List.mem_append, List.mem_singleton] at he
    rcases he with he | he
    · obtain ⟨h1, h2, _, h4⟩ := server_init_trace_events srv0 8080 os e he
      exact ⟨h2, h1, h4⟩
    · subst he
      refine ⟨rfl, rfl, by decide⟩
  · intro run os1 srv1
    by_cases h0 : (server_init srv1 8080 os1).ret = 0
    · by_cases hr : (run (server_init srv1 8080 os1).srv).returned = true
      · rw [main_linked_returned run os1 srv1 h0 hr]
        simp [h0, hr]
      · have hr2 : (run (server_init srv1 8080 os1).srv).returned = false := by
          simpa using hr
        rw [main_linked_running run os1 srv1 h0 hr2]
        simp [hr2]
    · rw [main_linked_init_fails run os1 srv1 h0]
      simp [h0]

/-- C5, at a concrete run: `bind` fails because the port is in use. -/
theorem main_init_failure_exits_witness :
    (server_init srv_garbage 8080 os_bind_fails).ret ≠ 0 ∧
    main os_bind_fails srv_garbage addr_garbage [⟨4, some peer_a⟩] =
      ⟨[Event.printf "Preparing to create the socket...\n",
        Event.socket 2 1 0 3,
        Event.printf "Socket created succesfully !\n",
        Event.printf "Preparing to Bind...\n",
        Event.bind 3 ⟨2, ⟨31, 144⟩, ⟨0, 0, 0, 0⟩⟩ 16 (-1),
        Event.perror "bind",
        Event.perror "failed to init the server \n"], some (-1)⟩ :=
  ⟨by decide,
    (main_init_failure_exits os_bind_fails srv_garbage addr_garbage [⟨4, some peer_a⟩]
      (by decide)).1.trans (by decide)⟩

/-- C6: for every port `p`, `server_init` sets `srv->port = p` and
`srv->backlog = 10`, creates the socket with `socket(AF_INET, SOCK_STREAM, 0)`,
binds it (once `socket` succeeded) to the wildcard address `INADDR_ANY` and
the port `htons(p)`, and (once `bind` succeeded) calls `listen` with backlog
10; these are its only calls of `bind` and `listen`.  `main` starts with the
calls of `server_init` for port 8080, so in every run of `main` whose
initialisation succeeds the only `bind` is to `INADDR_ANY`, port 8080 (octets
31, 144), and the only `listen` has backlog 10. -/
theorem listens_on_all_interfaces_port_8080 (srv0 : server_t) (p : Int) (os : InitOutcome)
    (ca : sockaddr_in) (accepts : List AcceptOutcome) :
    (server_init srv0 p os).srv.port = p ∧
    (server_init srv0 p os).srv.backlog = 10 ∧
    Event.socket AF_INET SOCK_STREAM 0 os.socket_ret ∈ (server_init srv0 p os).trace ∧
    (0 ≤ os.socket_ret →
      Event.bind os.socket_ret ⟨AF_INET, htons p, INADDR_ANY⟩ sizeof_sockaddr_in os.bind_ret
        ∈ (server_init srv0 p os).trace) ∧
    (0 ≤ os.socket_ret → 0 ≤ os.bind_ret →
      Event.listen os.socket_ret 10 os.listen_ret ∈ (server_init srv0 p os).trace) ∧
    (∀ e ∈ (server_init srv0 p os).trace,
      (e.isBind = true →
        e = Event.bind os.socket_ret ⟨AF_INET, htons p, INADDR_ANY⟩ sizeof_sockaddr_in
          os.bind_ret) ∧
      (e.isListen = true → e = Event.listen os.socket_ret 10 os.listen_ret)) ∧
    (∃ rest, (main os srv0 ca accepts).trace = (server_init srv0 8080 os).trace ++ rest) ∧
    ((server_init srv0 8080 os).ret = 0 →
      Event.bind os.socket_ret ⟨2, ⟨31, 144⟩, ⟨0, 0, 0, 0⟩⟩ 16 os.bind_ret
        ∈ (main os srv0 ca accepts).trace ∧
      Event.listen os.socket_ret 10 os.listen_ret ∈ (main os srv0 ca accepts).trace ∧
      (∀ e ∈ (main os srv0 ca accepts).trace,
        (e.isBind = true →
          e = Event.bind os.socket_ret ⟨2, ⟨31, 144⟩, ⟨0, 0, 0, 0⟩⟩ 16 os.bind_ret) ∧
        (e.isListen = true → e = Event.listen os.socket_ret 10 os.listen_ret))) := by
  have key : ∀ q : Int,
      (0 ≤ os.socket_ret →
        Event.bind os.socket_ret ⟨AF_INET, htons q, INADDR_ANY⟩ sizeof_sockaddr_in os.bind_ret
          ∈ (server_init srv0 q os).trace) ∧
      (0 ≤ os.socket_ret → 0 ≤ os.bind_ret →
        Event.listen os.socket_ret 10 os.listen_ret ∈ (server_init srv0 q os).trace) ∧
      (∀ e ∈ (server_init srv0 q os).trace,
        (e.isBind = true →
          e = Event.bind os.socket_ret ⟨AF_INET, htons q, INADDR_ANY⟩ sizeof_sockaddr_in
            os.bind_ret) ∧
        (e.isListen = true → e = Event.listen os.socket_ret 10 os.listen_ret)) := by
    intro q
    rcases server_init_cases os with h | ⟨h1, h2⟩ | ⟨h1, h2, h3⟩ | ⟨h1, h2, h3⟩
    · rw [server_init_socket_fails srv0 q os h]
      refine ⟨fun h0 => by omega, fun h0 => by omega, ?_⟩
      simp [Event.isBind, Event.isListen]
    · rw [server_init_bind_fails srv0 q os h1 h2]
      refine ⟨fun _ => by simp, fun _ h0 => by omega, ?_⟩
      simp [Event.isBind, Event.isListen]
    · rw [server_init_listen_fails srv0 q os h1 h2 h3]
      refine ⟨fun _ => by simp, fun _ _ => by simp, ?_⟩
      simp [Event.isBind, Event.isListen]
    · rw [server_init_succeeds srv0 q os h1 h2 h3]
      refine ⟨fun _ => by simp, fun _ _ => by simp, ?_⟩
      simp [Event.isBind, Event.isListen]
  have hsock : Event.socket AF_INET SOCK_STREAM 0 os.socket_ret
      ∈ (server_init srv0 p os).trace := by
    rcases server_init_cases os with h | ⟨h1, h2⟩ | ⟨h1, h2, h3⟩ | ⟨h1, h2, h3⟩
    · rw [server_init_socket_fails srv0 p os h]; simp
    · rw [server_init_bind_fails srv0 p os h1 h2]; simp
    · rw [server_init_listen_fails srv0 p os h1 h2 h3]; simp
    · rw [server_init_succeeds srv0 p os h1 h2 h3]; simp
  have hconst : (⟨AF_INET, htons 8080, INADDR_ANY⟩ : sockaddr_in) =
      ⟨2, ⟨31, 144⟩, ⟨0, 0, 0, 0⟩⟩ := by
    decide
  have hsize : sizeof_sockaddr_in = 16 := rfl
  refine ⟨by rw [server_init_srv], by rw [server_init_srv], hsock, (key p).1, (key p).2.1,
    (key p).2.2, ?_, ?_⟩
  · by_cases h0 : (server_init srv0 8080 os).ret = 0
    · refine ⟨[Event.printf "Server init sucessful...\n"] ++
        (server_run (server_init srv0 8080 os).srv ca accepts).trace, ?_⟩
      rw [main, main_linked_running _ os srv0 h0 (server_run_returned _ _ _)]
      simp
    · refine ⟨[Event.perror "failed to init the server \n"], ?_⟩
      rw [main, main_linked_init_fails _ os srv0 h0]
  · intro h0
    have hall : 0 ≤ os.socket_ret ∧ 0 ≤ os.bind_ret ∧ 0 ≤ os.listen_ret := by
      rcases server_init_ret srv0 8080 os with h | h
      · exact h.2
      · rw [h.1] at h0; exact absurd h0 (by decide)
    have hk := key 8080
    rw [hconst, hsize] at hk
    rw [main, main_linked_running _ os srv0 h0 (server_run_returned _ _ _)]
    refine ⟨?_, ?_, ?_⟩
    · simp only [List.mem_append]
      exact Or.inl (Or.inl (hk.1 hall.1))
    · simp only [List.mem_append]
      exact Or.inl (Or.inl (hk.2.1 hall.1 hall.2.1))
    · intro e he
      simp only [List.mem_append, List.mem_singleton] at he
      rcases he with (he | he) | he
      · exact hk.2.2 e he
      · subst he
        exact ⟨fun h => by simp [Event.isBind] at h, fun h => by simp [Event.isListen] at h⟩
      · have hn := server_run_no_bind_listen _ _ _ e he
        exact ⟨fun h => by rw [hn.1] at h; exact absurd h (by decide),
          fun h => by rw [hn.2] at h; exact absurd h (by decide)⟩

/-- C7: the loop of `server_run` has no exit: after any finite sequence of
accept outcomes `server_run` has not returned.  So `main` never returns 0, and
when `server_init` succeeded its run is the calls of `server_init`, the line
"Server init sucessful...", and the calls of `server_run`, without the call
of `close` of `server_close`.  As long as no successful `accept` returns the
number of the still open listening socket, no `close` is issued on
`srv->server_fd`. -/
theorem server_run_never_returns (os : InitOutcome) (srv0 : server_t) (ca : sockaddr_in)
    (accepts : List AcceptOutcome) :
    (∀ srv : server_t, (server_run srv ca accepts).returned = false) ∧
    (main os srv0 ca accepts).exit_code ≠ some 0 ∧
    ((server_init srv0 8080 os).ret = 0 →
      main os srv0 ca accepts =
        ⟨(server_init srv0 8080 os).trace ++ [Event.printf "Server init sucessful...\n"] ++
          (server_run (server_init srv0 8080 os).srv ca accepts).trace, none⟩) ∧
    ((∀ o ∈ accepts, 0 ≤ o.ret → o.ret ≠ (server_init srv0 8080 os).srv.server_fd) →
      Event.close (server_init srv0 8080 os).srv.server_fd
        ∉ (main os srv0 ca accepts).trace) := by
  refine ⟨fun srv => server_run_returned _ _ _, ?_, ?_, ?_⟩
  · by_cases h0 : (server_init srv0 8080 os).ret = 0
    · rw [main, main_linked_running _ os srv0 h0 (server_run_returned _ _ _)]
      simp
    · rw [main, main_linked_init_fails _ os srv0 h0]
      simp
  · intro h0
    rw [main, main_linked_running _ os srv0 h0 (server_run_returned _ _ _)]
  · intro hfresh hmem
    by_cases h0 : (server_init srv0 8080 os).ret = 0
    · rw [main, main_linked_running _ os srv0 h0 (server_run_returned _ _ _)] at hmem
      simp only [List.mem_append, List.mem_singleton] at hmem
      rcases hmem with (hmem | hmem) | hmem
      · have := (server_init_trace_events srv0 8080 os _ hmem).1
        simp [Event.isClose] at this
      · exact absurd hmem (by simp)
      · obtain ⟨o, ho, heq⟩ := server_run_close_origin _ _ _ _ hmem
        have hfd : 0 ≤ (server_init srv0 8080 os).srv.server_fd := by
          rw [server_init_srv]
          rcases server_init_ret srv0 8080 os with h | h
          · exact h.2.1
          · rw [h.1] at h0; exact absurd h0 (by decide)
        exact hfresh o ho (by rw [heq]; exact hfd) heq
    · rw [main, main_linked_init_fails _ os srv0 h0] at hmem
      simp only [List.mem_append, List.mem_singleton] at hmem
      rcases hmem with hmem | hmem
      · have := (server_init_trace_events srv0 8080 os _ hmem).1
        simp [Event.isClose] at this
      · exact absurd hmem (by simp)

/-- C7, at a concrete run: initialisation succeeds with listening descriptor
3, one client is served on descriptor 4, one accept fails. -/
theorem server_run_never_returns_witness :
    (∀ o ∈ [(⟨4, some peer_a⟩ : AcceptOutcome), accept_failed],
      0 ≤ o.ret → o.ret ≠ (server_init srv_garbage 8080 os_ok).srv.server_fd) ∧
    (main os_ok srv_garbage addr_garbage [⟨4, some peer_a⟩, accept_failed]).exit_code = none ∧
    Event.close 3 ∉ (main os_ok srv_garbage addr_garbage
      [⟨4, some peer_a⟩, accept_failed]).trace :=
  ⟨by decide, by decide,
    (server_run_never_returns os_ok srv_garbage addr_garbage
      [⟨4, some peer_a⟩, accept_failed]).2.2.2 (by decide)⟩

/-- C8 as stated fails: when `socket` returns descriptor 3 and `bind` fails,
`server_init` returns -1 and leaves `srv->server_fd = 3`, a descriptor and
not the initial value -1. -/
theorem server_fd_set_before_bind :
    0 ≤ os_bind_fails.socket_ret ∧ os_bind_fails.bind_ret < 0 ∧
    (server_init srv_garbage 8080 os_bind_fails).ret = -1 ∧
    (server_init srv_garbage 8080 os_bind_fails).srv.server_fd = 3 ∧
    (server_init srv_garbage 8080 os_bind_fails).srv.server_fd ≠ -1 ∧
    0 ≤ (server_init srv_garbage 8080 os_bind_fails).srv.server_fd := by
  decide

/-- C8, amended: on return from `server_init`, `srv->port` is the port given,
`srv->backlog` is 10 and `srv->server_fd` is the value `socket` returned,
whatever the outcome of `bind` and `listen`.  When `socket` fails,
`server_init` returns -1 and `srv->server_fd` is that negative value (-1 when
`socket` returned -1), so it holds no socket handle; `srv->server_fd` is a
descriptor (non-negative) on return exactly when `socket` succeeded. -/
theorem server_fd_holds_socket_result (srv : server_t) (port : Int) (os : InitOutcome) :
    (server_init srv port os).srv.port = port ∧
    (server_init srv port os).srv.backlog = 10 ∧
    (server_init srv port os).srv.server_fd = os.socket_ret ∧
    (os.socket_ret < 0 →
      (server_init srv port os).ret = -1 ∧ (server_init srv port os).srv.server_fd < 0) ∧
    (os.socket_ret = -1 → (server_init srv port os).srv.server_fd = -1) ∧
    (0 ≤ (server_init srv port os).srv.server_fd ↔ 0 ≤ os.socket_ret) := by
  rw [server_init_srv]
  refine ⟨rfl, rfl, rfl, fun h => ⟨?_, h⟩, fun h => h, Iff.rfl⟩
  rw [server_init_socket_fails srv port os h]

/-- C9: `server_init` runs `socket`, `bind`, `listen` in this order and stops
at the first failure.  For each failing step the run is given in full: it
ends with the one `perror` report labelled with that step, without the
success line of the step and without any call or line of a later step.  A
call of `bind` occurs only if `socket` succeeded, a call of `listen` only if
`bind` did too, and a failing run holds exactly one `perror` report and no
line "listening...". -/
theorem server_init_stops_at_first_failure (srv : server_t) (port : Int) (os : InitOutcome) :
    (os.socket_ret < 0 →
      (server_init srv port os).trace =
        [Event.printf "Preparing to create the socket...\n",
         Event.socket AF_INET SOCK_STREAM 0 os.socket_ret,
         Event.perror "socket"]) ∧
    (0 ≤ os.socket_ret → os.bind_ret < 0 →
      (server_init srv port os).trace =
        [Event.printf "Preparing to create the socket...\n",
         Event.socket AF_INET SOCK_STREAM 0 os.socket_ret,
         Event.printf "Socket created succesfully !\n",
         Event.printf "Preparing to Bind...\n",
         Event.bind os.socket_ret ⟨AF_INET, htons port, INADDR_ANY⟩ sizeof_sockaddr_in
           os.bind_ret,
         Event.perror "bind"]) ∧
    (0 ≤ os.socket_ret → 0 ≤ os.bind_ret → os.listen_ret < 0 →
      (server_init srv port os).trace =
        [Event.printf "Preparing to create the socket...\n",
         Event.socket AF_INET SOCK_STREAM 0 os.socket_ret,
         Event.printf "Socket created succesfully !\n",
         Event.printf "Preparing to Bind...\n",
         Event.bind os.socket_ret ⟨AF_INET, htons port, INADDR_ANY⟩ sizeof_sockaddr_in
           os.bind_ret,
         Event.printf "Bind succesful !\n",
         Event.printf "Preparing to listen...\n",
         Event.listen os.socket_ret 10 os.listen_ret,
         Event.perror "listen"]) ∧
    ((∃ e ∈ (server_init srv port os).trace, e.isBind = true) → 0 ≤ os.socket_ret) ∧
    ((∃ e ∈ (server_init srv port os).trace, e.isListen = true) →
      0 ≤ os.socket_ret ∧ 0 ≤ os.bind_ret) ∧
    ((server_init srv port os).ret ≠ 0 →
      ((server_init srv port os).trace.filter Event.isPerror).length = 1 ∧
      Event.printf "listening...\n" ∉ (server_init srv port os).trace) := by
  refine ⟨fun h => by rw [server_init_socket_fails srv port os h],
    fun h1 h2 => by rw [server_init_bind_fails srv port os h1 h2],
    fun h1 h2 h3 => by rw [server_init_listen_fails srv port os h1 h2 h3], ?_, ?_, ?_⟩
  · rcases server_init_cases os with h | ⟨h1, h2⟩ | ⟨h1, h2, h3⟩ | ⟨h1, h2, h3⟩
    · rw [server_init_socket_fails srv port os h]
      simp [Event.isBind]
    · exact fun _ => h1
    · exact fun _ => h1
    · exact fun _ => h1
  · rcases server_init_cases os with h | ⟨h1, h2⟩ | ⟨h1, h2, h3⟩ | ⟨h1, h2, h3⟩
    · rw [server_init_socket_fails srv port os h]
      simp [Event.isListen]
    · rw [server_init_bind_fails srv port os h1 h2]
      simp [Event.isListen]
    · exact fun _ => ⟨h1, h2⟩
    · exact fun _ => ⟨h1, h2⟩
  · rcases server_init_cases os with h | ⟨h1, h2⟩ | ⟨h1, h2, h3⟩ | ⟨h1, h2, h3⟩
    · rw [server_init_socket_fails srv port os h]
      intro _
      exact ⟨by simp [Event.isPerror], by simp⟩
    · rw [server_init_bind_fails srv port os h1 h2]
      intro _
      exact ⟨by simp [Event.isPerror], by simp⟩
    · rw [server_init_listen_fails srv port os h1 h2 h3]
      intro _
      exact ⟨by simp [Event.isPerror], by simp⟩
    · rw [server_init_succeeds srv port os h1 h2 h3]
      intro h0
      exact absurd rfl h0

/-- C10: when `socket` succeeds and `bind` or `listen` fails, `server_init`
returns -1 without any call of `close`, and `srv->server_fd` still holds the
descriptor `socket` returned.  On every run of `main` in which `server_init`
fails, no call of `close` is issued at all. -/
theorem server_init_failure_leaves_socket_open (os : InitOutcome) (srv0 : server_t)
    (port : Int) (hs : 0 ≤ os.socket_ret) (hf : os.bind_ret < 0 ∨ os.listen_ret < 0) :
    (server_init srv0 port os).ret = -1 ∧
    (∀ e ∈ (server_init srv0 port os).trace, e.isClose = false) ∧
    (server_init srv0 port os).srv.server_fd = os.socket_ret ∧
    0 ≤ (server_init srv0 port os).srv.server_fd ∧
    (∀ (os1 : InitOutcome) (srv1 : server_t) (ca : sockaddr_in) (accepts : List AcceptOutcome),
      (server_init srv1 8080 os1).ret ≠ 0 →
        (main os1 srv1 ca accepts).exit_code = some (-1) ∧
        ∀ e ∈ (main os1 srv1 ca accepts).trace, e.isClose = false) := by
  refine ⟨?_, fun e he => (server_init_trace_events srv0 port os e he).1, ?_, ?_, ?_⟩
  · rcases server_init_ret srv0 port os with h | h
    · omega
    · exact h.1
  · rw [server_init_srv]
  · rw [server_init_srv]; exact hs
  · intro os1 srv1 ca accepts h0
    rw [main, main_linked_init_fails _ os1 srv1 h0]
    refine ⟨rfl, fun e he => ?_⟩
    simp only [List.mem_append, List.mem_singleton] at he
    rcases he with he | he
    · exact (server_init_trace_events srv1 8080 os1 e he).1
    · subst he; rfl

/-- C10, at a concrete run: `socket` returns 3 and `listen` fails. -/
theorem server_init_failure_leaves_socket_open_witness :
    0 ≤ os_listen_fails.socket_ret ∧
    (os_listen_fails.bind_ret < 0 ∨ os_listen_fails.listen_ret < 0) ∧
    (server_init srv_garbage 8080 os_listen_fails).ret = -1 ∧
    (server_init srv_garbage 8080 os_listen_fails).srv.server_fd = 3 :=
  ⟨by decide, by decide,
    (server_init_failure_leaves_socket_open os_listen_fails srv_garbage 8080 (by decide)
      (by decide)).1,
    by decide⟩

end HttpServer
